import Mathlib

/-!
Verification of the element-interaction and retry layer of a Selenium
page-object test suite (pages/base_page.py, utils/waits.py, utils/helpers.py).

Python strings are embedded as `List Char`; machine behaviour of the browser
driver is embedded as explicit environments recording, per driver call, either
success or the exception the call raises.  Exceptions are values of `Exn`;
an operation's result is the pair of the screenshot names it records and the
exception it re-raises (`none` = returns normally).
-/

/-- Selenium locator strategies (selenium.webdriver.common.by.By). -/
inductive By
  | XPATH
  | ID
  | NAME
  | LINK_TEXT
  | PARTIAL_LINK_TEXT
  | TAG_NAME
  | CLASS_NAME
  | CSS_SELECTOR
deriving DecidableEq, Repr

/-- Python `str.replace(p, '')` on `List Char`: delete every non-overlapping
occurrence of `p`, scanning left to right.  For `p = []` the scan would not
advance; Python inserts the empty replacement everywhere, which for deletion
is the identity, and the code only ever calls this with a non-empty pattern. -/
def pyReplaceDel (p : List Char) : List Char → List Char
  | [] => []
  | c :: rest =>
    if p.isPrefixOf (c :: rest) then
      match p with
      | [] => c :: pyReplaceDel p rest
      | _ :: ptl => pyReplaceDel p (rest.drop ptl.length)
    else
      c :: pyReplaceDel p rest
termination_by l => l.length
decreasing_by
  all_goals simp only [List.length_cons, List.length_drop]
  all_goals omega

/-- BasePage._get_by_strategy (base_page.py lines 50-83): dispatch on the
selector's leading text; each recognized branch strips the scheme tag with
Python `str.replace(tag, '')`, and the default branch is CSS with the selector
unchanged. -/
def get_by_strategy (selector : List Char) : By × List Char :=
  if "xpath=".toList.isPrefixOf selector || "//".toList.isPrefixOf selector
      || "(//".toList.isPrefixOf selector then
    (By.XPATH, pyReplaceDel "xpath=".toList selector)
  else if "id=".toList.isPrefixOf selector then
    (By.ID, pyReplaceDel "id=".toList selector)
  else if "name=".toList.isPrefixOf selector then
    (By.NAME, pyReplaceDel "name=".toList selector)
  else if "link=".toList.isPrefixOf selector then
    (By.LINK_TEXT, pyReplaceDel "link=".toList selector)
  else if "partial_link=".toList.isPrefixOf selector then
    (By.PARTIAL_LINK_TEXT, pyReplaceDel "partial_link=".toList selector)
  else if "tag=".toList.isPrefixOf selector then
    (By.TAG_NAME, pyReplaceDel "tag=".toList selector)
  else if "class=".toList.isPrefixOf selector then
    (By.CLASS_NAME, pyReplaceDel "class=".toList selector)
  else
    (By.CSS_SELECTOR, selector)

/-- StringHelper.truncate (helpers.py lines 66-69):
`text[:length] + "..." if len(text) > length else text`. -/
def truncate (text : List Char) (len : Nat) : List Char :=
  if text.length > len then text.take len ++ "...".toList else text

/-- StringHelper.clean_filename (helpers.py lines 71-74): keep alphanumeric
characters, space, dash, underscore, then strip surrounding whitespace.
(Included for completeness of the helpers module.) -/
def clean_filename (filename : List Char) : List Char :=
  ((filename.filter fun c =>
    c.isAlphanum || c = ' ' || c = '-' || c = '_')).dropWhile (· = ' ')
    |>.reverse.dropWhile (· = ' ') |>.reverse

/-- Exceptions of the selenium layer as they matter to the control flow of
base_page.py: the two retryable ones, the ones caught by state checks, and a
catch-all for anything else.  `timeout` carries its message, since
ant_select_option constructs one naming the option. -/
inductive Exn
  | elementNotInteractable
  | staleElementReference
  | timeout (msg : String)
  | noSuchElement
  | other (msg : String)
deriving DecidableEq, Repr

/-- The exceptions click_element_with_retry retries on
(base_page.py line 187: `except (ElementNotInteractableException,
StaleElementReferenceException)`). -/
def retryable : Exn → Bool
  | .elementNotInteractable => true
  | .staleElementReference => true
  | _ => false

/-- Is this a TimeoutException? -/
def isTimeout : Exn → Bool
  | .timeout _ => true
  | _ => false

/-- Exceptions caught by the state checks is_visible / is_enabled / is_checked
/ count_elements / element_exists (base_page.py lines 985-1035:
`except (TimeoutException, NoSuchElementException)`). -/
def caughtByStateCheck : Exn → Bool
  | .timeout _ => true
  | .noSuchElement => true
  | _ => false

/-- Exceptions caught inside ant_select_option's virtual-list loop
(base_page.py line 697: `except (NoSuchElementException,
ElementNotInteractableException)`). -/
def caughtInScroll : Exn → Bool
  | .noSuchElement => true
  | .elementNotInteractable => true
  | _ => false

/-- The click strategies used by click_element_with_retry's escalation
(base_page.py lines 169-180). -/
inductive ClickStrategy
  | standard
  | javascript
  | actionChains
deriving DecidableEq, Repr

/-- Observable actions of one run of the retry loop; sleeps are recorded in
tenths of a second. -/
inductive Event
  | attemptStart (n : Nat)
  | waitClickable
  | logState
  | scrollIntoView
  | sleep (tenths : Nat)
  | click (s : ClickStrategy)
  | screenshot (name : String)
deriving DecidableEq, Repr

/-- The strategy the body of click_element_with_retry picks on a given attempt
number (base_page.py lines 169-180: `if attempt == 1 … elif attempt == 2 …
else …`). -/
def stratFor (attempt : Nat) : ClickStrategy :=
  if attempt = 1 then .standard
  else if attempt = 2 then .javascript
  else .actionChains

/-- Driver behaviour during one attempt of the retry loop: the outcome of
_find_clickable_element, of scroll_to_element, and of the strategy click.
`none` = the call succeeds, `some e` = it raises `e`.  _log_element_state
has no failure mode (it catches internally; see log_element_state below). -/
structure AttemptEnv where
  find : Option Exn
  scroll : Option Exn
  click : Option Exn
deriving DecidableEq, Repr

/-- One iteration of the retry loop's try block (base_page.py lines 153-185):
wait for clickable, log state, scroll into view, sleep 0.3s, click with the
attempt's strategy, sleep 0.5s, return.  Result: trace of events and the
exception the body raises (none = the body returned). -/
def runAttempt (a : AttemptEnv) (attempt : Nat) : List Event × Option Exn :=
  match a.find with
  | some e => ([.attemptStart attempt, .waitClickable], some e)
  | none =>
    match a.scroll with
    | some e =>
      ([.attemptStart attempt, .waitClickable, .logState, .scrollIntoView], some e)
    | none =>
      match a.click with
      | some e =>
        ([.attemptStart attempt, .waitClickable, .logState, .scrollIntoView,
          .sleep 3, .click (stratFor attempt)], some e)
      | none =>
        ([.attemptStart attempt, .waitClickable, .logState, .scrollIntoView,
          .sleep 3, .click (stratFor attempt), .sleep 5], none)

/-- The retry loop of click_element_with_retry from a given attempt number
(base_page.py lines 152-206).  On a retryable failure before the last attempt
it sleeps 1s and continues; on the last attempt it screenshots
"click_retry_failed" and re-raises; on any other exception it screenshots
"click_error_attempt_{n}" and re-raises at once.  Falling out of the loop
(only possible when it never ran, i.e. max_attempts < 1) returns normally
because last_exception is still None there. -/
def clickRetryGo (env : Nat → AttemptEnv) (maxAttempts attempt : Nat) :
    List Event × Option Exn :=
  if maxAttempts < attempt then ([], none)
  else
    match (runAttempt (env attempt) attempt).2 with
    | none => ((runAttempt (env attempt) attempt).1, none)
    | some e =>
      if retryable e then
        if attempt < maxAttempts then
          ((runAttempt (env attempt) attempt).1
              ++ Event.sleep 10 :: (clickRetryGo env maxAttempts (attempt + 1)).1,
            (clickRetryGo env maxAttempts (attempt + 1)).2)
        else
          ((runAttempt (env attempt) attempt).1
              ++ [Event.screenshot "click_retry_failed"], some e)
      else
        ((runAttempt (env attempt) attempt).1
            ++ [Event.screenshot ("click_error_attempt_" ++ toString attempt)],
          some e)
termination_by maxAttempts + 1 - attempt
decreasing_by all_goals omega

/-- BasePage.click_element_with_retry (base_page.py lines 137-206):
the loop runs attempts 1 .. max_attempts. -/
def click_element_with_retry (env : Nat → AttemptEnv) (maxAttempts : Nat) :
    List Event × Option Exn :=
  clickRetryGo env maxAttempts 1

/-- Number of attempts started in a trace. -/
def countAttempts (trace : List Event) : Nat :=
  (trace.filter fun ev =>
    match ev with
    | .attemptStart _ => true
    | _ => false).length

/-- Does the trace record a screenshot? -/
def hasScreenshot (trace : List Event) : Bool :=
  trace.any fun ev =>
    match ev with
    | .screenshot _ => true
    | _ => false

/-- Number of one-second pauses (sleep of ten tenths) in a trace: these occur
exactly at base_page.py line 193, before a retry. -/
def countSleep10 (trace : List Event) : Nat :=
  (trace.filter fun ev =>
    match ev with
    | .sleep 10 => true
    | _ => false).length

/-- Attempt i's body returns normally (the click landed). -/
def attemptSucceeds (env : Nat → AttemptEnv) (i : Nat) : Prop :=
  (runAttempt (env i) i).2 = none

/-- Attempt i's body raises one of the two retryable exceptions. -/
def attemptFailsRetryable (env : Nat → AttemptEnv) (i : Nat) : Prop :=
  ∃ e, (runAttempt (env i) i).2 = some e ∧ retryable e = true

/-- BasePage._take_screenshot (base_page.py lines 1057-1069): makedirs and
save_screenshot sit in a try whose except only logs a warning.  The driver
environment gives the outcome of each call; the helper never re-raises. -/
def take_screenshot (makedirs save : Option Exn) : List String × Option Exn :=
  match makedirs with
  | some _ => ([], none)
  | none =>
    match save with
    | some _ => ([], none)
    | none => ([], none)

/-- BasePage._log_element_state (base_page.py lines 1039-1055): is_displayed
and is_enabled sit in an outer try whose except logs a warning; reading
element.text sits in an inner bare try/except that passes.  Never re-raises. -/
def log_element_state (displayed enabled text : Option Exn) : Option Exn :=
  match displayed with
  | some _ => none
  | none =>
    match enabled with
    | some _ => none
    | none =>
      match text with
      | some _ => none
      | none => none

/-- BasePage.navigate_to (base_page.py lines 105-115): driver.get in a try;
on any exception, log, screenshot "navigation_error", re-raise. -/
def navigate_to (get : Option Exn) : List String × Option Exn :=
  match get with
  | some e => (["navigation_error"], some e)
  | none => ([], none)

/-- Driver behaviour during one call of click_element: the outcome of
_find_clickable_element, of the is_displayed/is_enabled/location reads that
build initial_state, of scroll_to_element_by_selector (which re-finds the
element), and of element.click().  _verify_click_registered never raises
(its whole body is in a try whose except logs a warning). -/
structure ClickEnv where
  find : Option Exn
  stateRead : Option Exn
  scroll : Option Exn
  click : Option Exn
deriving DecidableEq, Repr

/-- The try body of click_element (base_page.py lines 256-281), as the first
exception it raises: find clickable, log state (no failure mode), read the
initial state when verify_click, scroll, click, verify (no failure mode). -/
def click_element_body (env : ClickEnv) (verifyClick : Bool) : Option Exn :=
  match env.find with
  | some e => some e
  | none =>
    match (if verifyClick then env.stateRead else none) with
    | some e => some e
    | none =>
      match env.scroll with
      | some e => some e
      | none => env.click

/-- BasePage.click_element (base_page.py lines 246-285): on any exception of
the body, log, screenshot "click_error", re-raise. -/
def click_element (env : ClickEnv) (verifyClick : Bool) :
    List String × Option Exn :=
  match click_element_body env verifyClick with
  | some e => (["click_error"], some e)
  | none => ([], none)

/-- Driver behaviour during one call of fill_input: outcomes of
_find_element, scroll_to_element_by_selector, element.clear(),
element.send_keys(value) and element.get_attribute used for the
value-mismatch check (a mismatch itself only logs a warning). -/
structure FillEnv where
  find : Option Exn
  scroll : Option Exn
  clear : Option Exn
  sendKeys : Option Exn
  getAttr : Option Exn
deriving DecidableEq, Repr

/-- The try body of fill_input (base_page.py lines 342-363), as the first
exception it raises; clear only runs when clear_first. -/
def fill_input_body (env : FillEnv) (clearFirst : Bool) : Option Exn :=
  match env.find with
  | some e => some e
  | none =>
    match env.scroll with
    | some e => some e
    | none =>
      match (if clearFirst then env.clear else none) with
      | some e => some e
      | none =>
        match env.sendKeys with
        | some e => some e
        | none => env.getAttr

/-- BasePage.fill_input (base_page.py lines 338-367): on any exception of the
body, log, screenshot "fill_error", re-raise. -/
def fill_input (env : FillEnv) (clearFirst : Bool) : List String × Option Exn :=
  match fill_input_body env clearFirst with
  | some e => (["fill_error"], some e)
  | none => ([], none)

/-- What one overlay selector's round of wait_for_no_overlays observes:
no displayed overlay; an overlay that disappeared within the wait; a wait
that raised (TimeoutException / StaleElementReferenceException branch); or a
find_elements / is_displayed call that raised (generic except branch). -/
inductive OverlayOutcome
  | absent
  | cleared
  | waitRaised (e : Exn)
  | findRaised (e : Exn)
deriving DecidableEq, Repr

/-- One selector's round of wait_for_no_overlays (base_page.py lines
225-241): every arm is caught internally — `except (TimeoutException,
StaleElementReferenceException): pass` and `except Exception: pass` — so no
round takes a screenshot or raises. -/
def overlayStep : OverlayOutcome → List String × Option Exn
  | .absent => ([], none)
  | .cleared => ([], none)
  | .waitRaised _ => ([], none)
  | .findRaised _ => ([], none)

/-- Sequence operation results: stop at the first one that raises. -/
def runSeq : List (List String × Option Exn) → List String × Option Exn
  | [] => ([], none)
  | (shots, some e) :: _ => (shots, some e)
  | (shots, none) :: rest =>
    let r := runSeq rest
    (shots ++ r.1, r.2)

/-- BasePage.wait_for_no_overlays (base_page.py lines 208-243): iterate over
the six overlay selectors (".ant-modal-mask", ".ant-drawer-mask",
".ant-spin-blur", ".ant-spin-spinning", "[class*=\x27loading\x27]",
"[class*=\x27overlay\x27]"), each round as overlayStep. -/
def wait_for_no_overlays (env : Nat → OverlayOutcome) : List String × Option Exn :=
  runSeq ((List.range 6).map fun i => overlayStep (env i))

/-- Driver behaviour during click_ant_dropdown_trigger: outcomes of
wait_for_no_overlays (per overlay selector), _find_clickable_element, scroll,
trigger.click(), and the wait for the dropdown menu to become visible. -/
structure AntTriggerEnv where
  overlays : Nat → OverlayOutcome
  find : Option Exn
  scroll : Option Exn
  click : Option Exn
  menuWait : Option Exn

/-- The try body of click_ant_dropdown_trigger (base_page.py lines 557-577)
as the first exception it raises. -/
def ant_trigger_body (env : AntTriggerEnv) : Option Exn :=
  match (wait_for_no_overlays env.overlays).2 with
  | some e => some e
  | none =>
    match env.find with
    | some e => some e
    | none =>
      match env.scroll with
      | some e => some e
      | none =>
        match env.click with
        | some e => some e
        | none => env.menuWait

/-- BasePage.click_ant_dropdown_trigger (base_page.py lines 546-582): on any
exception, log, screenshot "dropdown_trigger_error", re-raise. -/
def click_ant_dropdown_trigger (env : AntTriggerEnv) : List String × Option Exn :=
  match ant_trigger_body env with
  | some e => (["dropdown_trigger_error"], some e)
  | none => ([], none)

/-- Driver behaviour during click_ant_dropdown_menu_item: outcomes of the
menu-visibility wait, the item-clickable wait, menu_item.click(), and the
final wait for the dropdown to close (which this method does NOT guard with
an inner try, unlike click_ant_dropdown_item). -/
structure AntMenuItemEnv where
  menuWait : Option Exn
  itemWait : Option Exn
  click : Option Exn
  closeWait : Option Exn
deriving DecidableEq, Repr

/-- The try body of click_ant_dropdown_menu_item (base_page.py lines 595-621)
as the first exception it raises. -/
def ant_menu_item_body (env : AntMenuItemEnv) : Option Exn :=
  match env.menuWait with
  | some e => some e
  | none =>
    match env.itemWait with
    | some e => some e
    | none =>
      match env.click with
      | some e => some e
      | none => env.closeWait

/-- BasePage.click_ant_dropdown_menu_item (base_page.py lines 584-627): on
any exception, log, screenshot "dropdown_menu_item_error", re-raise. -/
def click_ant_dropdown_menu_item (env : AntMenuItemEnv) :
    List String × Option Exn :=
  match ant_menu_item_body env with
  | some e => (["dropdown_menu_item_error"], some e)
  | none => ([], none)

/-- Driver behaviour during click_ant_dropdown_item: the trigger phase, the
menu-visibility wait, the three menu-item selector attempts (`none` = that
attempt clicked the item, `some e` = that attempt failed with e), and the
close wait. -/
structure AntItemEnv where
  overlays : Nat → OverlayOutcome
  findTrigger : Option Exn
  scroll : Option Exn
  clickTrigger : Option Exn
  menuWait : Option Exn
  items : Nat → Option Exn
  closeWait : Option Exn

/-- The selector loop of click_ant_dropdown_item (base_page.py lines
506-525): try each of the three menu-item selectors in turn, remembering the
last exception; stop at the first that clicks.  Returns (clicked?,
last_exception). -/
def antItemTryLoop (items : Nat → Option Exn) :
    Nat → Nat → Option Exn → Bool × Option Exn
  | _, 0, last => (false, last)
  | i, fuel + 1, last =>
    match items i with
    | none => (true, last)
    | some e => antItemTryLoop items (i + 1) fuel (some e)

/-- BasePage.click_ant_dropdown_item (base_page.py lines 447-544).  The
menu-visibility wait has an inner `except TimeoutException` that screenshots
"dropdown_not_visible" and re-raises into the outer handler; a failed
selector loop screenshots "menu_item_not_found" and raises the last
exception (or a generic one naming the item when none was recorded); a
close-wait TimeoutException is only a warning; and the outer handler
screenshots "ant_dropdown_error" and re-raises. -/
def click_ant_dropdown_item (env : AntItemEnv) (menuItemText : String) :
    List String × Option Exn :=
  match (wait_for_no_overlays env.overlays).2 with
  | some e => (["ant_dropdown_error"], some e)
  | none =>
    match env.findTrigger with
    | some e => (["ant_dropdown_error"], some e)
    | none =>
      match env.scroll with
      | some e => (["ant_dropdown_error"], some e)
      | none =>
        match env.clickTrigger with
        | some e => (["ant_dropdown_error"], some e)
        | none =>
          match env.menuWait with
          | some e =>
            if isTimeout e then
              (["dropdown_not_visible", "ant_dropdown_error"], some e)
            else
              (["ant_dropdown_error"], some e)
          | none =>
            match antItemTryLoop env.items 0 3 none with
            | (false, some e) =>
              (["menu_item_not_found", "ant_dropdown_error"], some e)
            | (false, none) =>
              (["menu_item_not_found", "ant_dropdown_error"],
                some (.other ("Menu item \x27" ++ menuItemText
                  ++ "\x27 not found")))
            | (true, _) =>
              match env.closeWait with
              | some e =>
                if isTimeout e then ([], none)
                else (["ant_dropdown_error"], some e)
              | none => ([], none)

/-- Driver behaviour during one iteration of ant_select_option's
virtual-list loop: the outcome of driver.find_element for the option XPath,
the option.is_displayed() answer, option.click(), and the dropdown-close
wait. -/
structure VIter where
  find : Option Exn
  displayed : Bool
  click : Option Exn
  closeWait : Option Exn
deriving DecidableEq, Repr

/-- How one iteration of the virtual-list loop ends. -/
inductive IterOutcome
  | success
  | continueLoop
  | raiseExn (e : Exn)
deriving DecidableEq, Repr

/-- One iteration of the loop at base_page.py lines 686-702: find the
option; if displayed, click it, wait for the dropdown to close, and return;
NoSuchElementException / ElementNotInteractableException anywhere in the try
fall through to the scroll; any other exception propagates.  An option found
but not displayed falls through to the scroll. -/
def runVIter (it : VIter) : IterOutcome :=
  match it.find with
  | some e => if caughtInScroll e then .continueLoop else .raiseExn e
  | none =>
    if it.displayed then
      match it.click with
      | some e => if caughtInScroll e then .continueLoop else .raiseExn e
      | none =>
        match it.closeWait with
        | some e => if caughtInScroll e then .continueLoop else .raiseExn e
        | none => .success
    else
      .continueLoop

/-- Result of the virtual-list search, recording how many scroll steps were
executed before it ended. -/
inductive VResult
  | selected (scrolls : Nat)
  | raisedOther (e : Exn) (scrolls : Nat)
  | timedOut (msg : String) (scrolls : Nat)
deriving DecidableEq, Repr

/-- Scroll count carried by a VResult. -/
def VResult.scrolls : VResult → Nat
  | .selected n => n
  | .raisedOther _ n => n
  | .timedOut _ n => n

/-- The `for attempt in range(30)` loop of ant_select_option (base_page.py
lines 686-704), from iteration i with i scrolls already done: check for the
option first; on fall-through scroll the virtual list by 100px, sleep 0.1s
and continue; after the 30 iterations raise
TimeoutException(f"Could not find option \x27{option_text}\x27 after
scrolling"). -/
def antScrollGo (env : Nat → VIter) (optionText : String) (i : Nat) : VResult :=
  if 30 ≤ i then
    .timedOut ("Could not find option \x27" ++ optionText
      ++ "\x27 after scrolling") i
  else
    match runVIter (env i) with
    | .success => .selected i
    | .raiseExn e => .raisedOther e i
    | .continueLoop => antScrollGo env optionText (i + 1)
termination_by 30 - i
decreasing_by omega

/-- Driver behaviour during ant_select_option: the loading check (always
swallowed by its bare except, so only recorded), the click_element call that
opens the dropdown, the panel-visibility wait, the immediate-option phase
(clickable wait, click, close wait — all inside one
`except TimeoutException`), the find of ".rc-virtual-list-holder", and the
per-iteration behaviour of the virtual-list loop. -/
structure AntSelectEnv where
  loading : Option Exn
  clickDropdown : ClickEnv
  panelWait : Option Exn
  immediateWait : Option Exn
  immediateClick : Option Exn
  immediateClose : Option Exn
  findVirtualList : Option Exn
  viter : Nat → VIter

/-- First exception of the immediate-option phase (base_page.py lines
666-678). -/
def antSelectImmediate (env : AntSelectEnv) : Option Exn :=
  match env.immediateWait with
  | some e => some e
  | none =>
    match env.immediateClick with
    | some e => some e
    | none => env.immediateClose

/-- BasePage.ant_select_option (base_page.py lines 629-709).  The loading
check swallows everything; click_element opens the dropdown (its own
screenshot "click_error" included on failure); a TimeoutException anywhere
in the immediate-option phase diverts to the virtual-list branch, whose
final failure raises a TimeoutException naming the option; the outer handler
screenshots "ant_select_error" and re-raises. -/
def ant_select_option (env : AntSelectEnv) (optionText : String) :
    List String × Option Exn :=
  match click_element env.clickDropdown true with
  | (shots, some e) => (shots ++ ["ant_select_error"], some e)
  | (shots, none) =>
    match env.panelWait with
    | some e => (shots ++ ["ant_select_error"], some e)
    | none =>
      match antSelectImmediate env with
      | none => (shots, none)
      | some e =>
        if isTimeout e then
          match env.findVirtualList with
          | some e2 => (shots ++ ["ant_select_error"], some e2)
          | none =>
            match antScrollGo env.viter optionText 0 with
            | .selected _ => (shots, none)
            | .raisedOther e3 _ => (shots ++ ["ant_select_error"], some e3)
            | .timedOut msg _ =>
              (shots ++ ["ant_select_error"], some (.timeout msg))
        else
          (shots ++ ["ant_select_error"], some e)

/-- BasePage.is_visible (base_page.py lines 985-994): find with timeout 2
then is_displayed, catching TimeoutException / NoSuchElementException into
False. -/
def is_visible (find : Option Exn) (displayed : Except Exn Bool) :
    Except Exn Bool :=
  let body : Except Exn Bool :=
    match find with
    | some e => .error e
    | none => displayed
  match body with
  | .error e => if caughtByStateCheck e then .ok false else .error e
  | .ok b => .ok b

/-- BasePage.is_enabled (base_page.py lines 996-1005): same shape over
element.is_enabled(). -/
def is_enabled (find : Option Exn) (enabled : Except Exn Bool) :
    Except Exn Bool :=
  let body : Except Exn Bool :=
    match find with
    | some e => .error e
    | none => enabled
  match body with
  | .error e => if caughtByStateCheck e then .ok false else .error e
  | .ok b => .ok b

/-- BasePage.is_checked (base_page.py lines 1007-1016): same shape over
element.is_selected(). -/
def is_checked (find : Option Exn) (selected : Except Exn Bool) :
    Except Exn Bool :=
  let body : Except Exn Bool :=
    match find with
    | some e => .error e
    | none => selected
  match body with
  | .error e => if caughtByStateCheck e then .ok false else .error e
  | .ok b => .ok b

/-- BasePage.count_elements (base_page.py lines 1018-1027): the length of
_find_elements, catching TimeoutException / NoSuchElementException into 0. -/
def count_elements (found : Except Exn (List Unit)) : Except Exn Nat :=
  match found with
  | .error e => if caughtByStateCheck e then .ok 0 else .error e
  | .ok els => .ok els.length

/-- BasePage.element_exists (base_page.py lines 1029-1035): True when
_find_element returns, catching TimeoutException / NoSuchElementException
into False. -/
def element_exists (find : Option Exn) : Except Exn Bool :=
  match find with
  | some e => if caughtByStateCheck e then .ok false else .error e
  | none => .ok true

/-- CustomWaits.wait_for_url_contains (waits.py lines 14-35): True when the
wait succeeds, False on TimeoutException; anything else propagates. -/
def wait_for_url_contains (wait : Option Exn) : Except Exn Bool :=
  match wait with
  | none => .ok true
  | some e => if isTimeout e then .ok false else .error e

/-- CustomWaits.wait_for_url_to_be (waits.py lines 37-58): same shape. -/
def wait_for_url_to_be (wait : Option Exn) : Except Exn Bool :=
  match wait with
  | none => .ok true
  | some e => if isTimeout e then .ok false else .error e

/-- CustomWaits.wait_for_element_text_to_be (waits.py lines 60-82): same
shape. -/
def wait_for_element_text_to_be (wait : Option Exn) : Except Exn Bool :=
  match wait with
  | none => .ok true
  | some e => if isTimeout e then .ok false else .error e

/-- CustomWaits.wait_for_custom_condition (waits.py lines 84-105): same
shape. -/
def wait_for_custom_condition (wait : Option Exn) : Except Exn Bool :=
  match wait with
  | none => .ok true
  | some e => if isTimeout e then .ok false else .error e

/-- A concrete driver environment: attempt 1 raises
StaleElementReferenceException at the click, every later attempt succeeds. -/
def retryEnvA : Nat → AttemptEnv := fun i =>
  if i = 1 then ⟨none, none, some .staleElementReference⟩
  else ⟨none, none, none⟩

/-- A concrete driver environment where every attempt succeeds at once. -/
def retryEnvOk : Nat → AttemptEnv := fun _ => ⟨none, none, none⟩

/-- A concrete virtual-list environment where the option is never found. -/
def scrollEnvNever : Nat → VIter := fun _ =>
  ⟨some .noSuchElement, false, none, none⟩


/-! ## Helper lemmas -/

theorem pyReplaceDel_nil (p : List Char) : pyReplaceDel p [] = [] := by
  rw [pyReplaceDel.eq_def]

theorem pyReplaceDel_cons_empty (c : Char) (rest : List Char) :
    pyReplaceDel [] (c :: rest) = c :: pyReplaceDel [] rest := by
  rw [pyReplaceDel.eq_def]
  simp [List.isPrefixOf]

theorem pyReplaceDel_cons_pos (q c : Char) (qtl rest : List Char)
    (hpre : (q :: qtl).isPrefixOf (c :: rest) = true) :
    pyReplaceDel (q :: qtl) (c :: rest)
      = pyReplaceDel (q :: qtl) (rest.drop qtl.length) := by
  rw [pyReplaceDel.eq_def]
  simp [hpre]

theorem pyReplaceDel_cons_neg (p : List Char) (c : Char) (rest : List Char)
    (hpre : ¬ p.isPrefixOf (c :: rest) = true) :
    pyReplaceDel p (c :: rest) = c :: pyReplaceDel p rest := by
  rw [pyReplaceDel.eq_def]
  simp [hpre]

theorem pyReplaceDel_length_le (p l : List Char) :
    (pyReplaceDel p l).length ≤ l.length := by
  induction l using pyReplaceDel.induct p with
  | case1 => simp [pyReplaceDel_nil]
  | case2 c rest hpre hp ih =>
    subst hp
    rw [pyReplaceDel_cons_empty]
    simp only [List.length_cons]
    omega
  | case3 c rest hpre q qtl hp ih =>
    subst hp
    rw [pyReplaceDel_cons_pos _ _ _ _ hpre]
    have hd := List.length_drop qtl.length rest
    simp only [List.length_cons]
    omega
  | case4 c rest hpre ih =>
    rw [pyReplaceDel_cons_neg _ _ _ hpre]
    simp only [List.length_cons]
    omega

theorem pyReplaceDel_cancel (q : Char) (qtl r : List Char) :
    pyReplaceDel (q :: qtl) ((q :: qtl) ++ r) = pyReplaceDel (q :: qtl) r := by
  have hpre : (q :: qtl).isPrefixOf (q :: (qtl ++ r)) = true :=
    List.isPrefixOf_iff_prefix.mpr (List.prefix_append _ _)
  calc pyReplaceDel (q :: qtl) ((q :: qtl) ++ r)
      = pyReplaceDel (q :: qtl) ((qtl ++ r).drop qtl.length) :=
        pyReplaceDel_cons_pos q q qtl (qtl ++ r) hpre
    _ = pyReplaceDel (q :: qtl) r := by rw [List.drop_left]

theorem pyReplaceDel_occurs_length (q : Char) (qtl : List Char) :
    ∀ (l a b : List Char), l = a ++ (q :: qtl) ++ b →
      (pyReplaceDel (q :: qtl) l).length ≤ l.length - (qtl.length + 1) := by
  intro l
  induction l using pyReplaceDel.induct (q :: qtl) with
  | case1 =>
    intro a b hl
    exact absurd hl.symm (by simp)
  | case2 c rest hpre hp ih =>
    exact absurd hp (by simp)
  | case3 c rest hpre q2 qtl2 hp ih =>
    intro a b hl
    obtain ⟨hq, hqtl⟩ := List.cons.inj hp
    subst hq
    subst hqtl
    rw [pyReplaceDel_cons_pos _ _ _ _ hpre]
    have h1 := pyReplaceDel_length_le (q :: qtl) (rest.drop qtl.length)
    have h2 := List.length_drop qtl.length rest
    simp only [List.length_cons]
    omega
  | case4 c rest hpre ih =>
    intro a b hl
    cases a with
    | nil =>
      simp only [List.nil_append] at hl
      have : (q :: qtl).isPrefixOf (c :: rest) = true := by
        rw [hl]
        exact List.isPrefixOf_iff_prefix.mpr (List.prefix_append _ _)
      exact absurd this hpre
    | cons a0 atl =>
      simp only [List.cons_append] at hl
      obtain ⟨hc, hrest⟩ := List.cons.inj hl
      rw [pyReplaceDel_cons_neg _ _ _ hpre]
      have hlen : qtl.length + 1 ≤ rest.length := by
        rw [hrest]
        simp [List.length_append]
        omega
      have := ih atl b hrest
      simp only [List.length_cons]
      omega

theorem getBy_xpath_eq (r : List Char) :
    get_by_strategy ("xpath=".toList ++ r)
      = (By.XPATH, pyReplaceDel "xpath=".toList ("xpath=".toList ++ r)) := by
  show get_by_strategy ('x' :: 'p' :: 'a' :: 't' :: 'h' :: '=' :: r) = _
  simp [get_by_strategy, List.isPrefixOf]

theorem getBy_dslash_sel (r : List Char) :
    (get_by_strategy ("//".toList ++ r)).1 = By.XPATH := by
  show (get_by_strategy ('/' :: '/' :: r)).1 = _
  simp [get_by_strategy, List.isPrefixOf]

theorem getBy_paren_sel (r : List Char) :
    (get_by_strategy ("(//".toList ++ r)).1 = By.XPATH := by
  show (get_by_strategy ('(' :: '/' :: '/' :: r)).1 = _
  simp [get_by_strategy, List.isPrefixOf]

theorem getBy_id_eq (r : List Char) :
    get_by_strategy ("id=".toList ++ r)
      = (By.ID, pyReplaceDel "id=".toList ("id=".toList ++ r)) := by
  show get_by_strategy ('i' :: 'd' :: '=' :: r) = _
  simp [get_by_strategy, List.isPrefixOf]

theorem getBy_name_eq (r : List Char) :
    get_by_strategy ("name=".toList ++ r)
      = (By.NAME, pyReplaceDel "name=".toList ("name=".toList ++ r)) := by
  show get_by_strategy ('n' :: 'a' :: 'm' :: 'e' :: '=' :: r) = _
  simp [get_by_strategy, List.isPrefixOf]

theorem getBy_link_eq (r : List Char) :
    get_by_strategy ("link=".toList ++ r)
      = (By.LINK_TEXT, pyReplaceDel "link=".toList ("link=".toList ++ r)) := by
  show get_by_strategy ('l' :: 'i' :: 'n' :: 'k' :: '=' :: r) = _
  simp [get_by_strategy, List.isPrefixOf]

theorem getBy_plink_eq (r : List Char) :
    get_by_strategy ("partial_link=".toList ++ r)
      = (By.PARTIAL_LINK_TEXT,
         pyReplaceDel "partial_link=".toList ("partial_link=".toList ++ r)) := by
  show get_by_strategy
    ('p' :: 'a' :: 'r' :: 't' :: 'i' :: 'a' :: 'l' :: '_' :: 'l' :: 'i' :: 'n' :: 'k' :: '=' :: r) = _
  simp [get_by_strategy, List.isPrefixOf]

theorem getBy_tag_eq (r : List Char) :
    get_by_strategy ("tag=".toList ++ r)
      = (By.TAG_NAME, pyReplaceDel "tag=".toList ("tag=".toList ++ r)) := by
  show get_by_strategy ('t' :: 'a' :: 'g' :: '=' :: r) = _
  simp [get_by_strategy, List.isPrefixOf]

theorem getBy_class_eq (r : List Char) :
    get_by_strategy ("class=".toList ++ r)
      = (By.CLASS_NAME, pyReplaceDel "class=".toList ("class=".toList ++ r)) := by
  show get_by_strategy ('c' :: 'l' :: 'a' :: 's' :: 's' :: '=' :: r) = _
  simp [get_by_strategy, List.isPrefixOf]

/-! ## C2: locator-strategy dispatch -/

/-- C2: _get_by_strategy is total (it is a Lean function) and dispatches on
the selector's leading text: selectors headed by "xpath=", "//" or "(//" go
to XPATH, "id=" to ID, "name=" to NAME, "link=" to LINK_TEXT,
"partial_link=" to PARTIAL_LINK_TEXT, "tag=" to TAG_NAME, "class=" to
CLASS_NAME, and any selector with none of those heads to CSS_SELECTOR with
the selector unchanged. -/
theorem get_by_strategy_dispatch :
    (∀ r : List Char, (get_by_strategy ("xpath=".toList ++ r)).1 = By.XPATH) ∧
    (∀ r : List Char, (get_by_strategy ("//".toList ++ r)).1 = By.XPATH) ∧
    (∀ r : List Char, (get_by_strategy ("(//".toList ++ r)).1 = By.XPATH) ∧
    (∀ r : List Char, (get_by_strategy ("id=".toList ++ r)).1 = By.ID) ∧
    (∀ r : List Char, (get_by_strategy ("name=".toList ++ r)).1 = By.NAME) ∧
    (∀ r : List Char, (get_by_strategy ("link=".toList ++ r)).1 = By.LINK_TEXT) ∧
    (∀ r : List Char,
      (get_by_strategy ("partial_link=".toList ++ r)).1 = By.PARTIAL_LINK_TEXT) ∧
    (∀ r : List Char, (get_by_strategy ("tag=".toList ++ r)).1 = By.TAG_NAME) ∧
    (∀ r : List Char, (get_by_strategy ("class=".toList ++ r)).1 = By.CLASS_NAME) ∧
    (∀ s : List Char,
      ("xpath=".toList.isPrefixOf s || "//".toList.isPrefixOf s
        || "(//".toList.isPrefixOf s || "id=".toList.isPrefixOf s
        || "name=".toList.isPrefixOf s || "link=".toList.isPrefixOf s
        || "partial_link=".toList.isPrefixOf s || "tag=".toList.isPrefixOf s
        || "class=".toList.isPrefixOf s) = false →
      get_by_strategy s = (By.CSS_SELECTOR, s)) := by
  refine ⟨?_, getBy_dslash_sel, getBy_paren_sel, ?_, ?_, ?_, ?_, ?_, ?_, ?_⟩
  · intro r
    rw [getBy_xpath_eq]
  · intro r
    rw [getBy_id_eq]
  · intro r
    rw [getBy_name_eq]
  · intro r
    rw [getBy_link_eq]
  · intro r
    rw [getBy_plink_eq]
  · intro r
    rw [getBy_tag_eq]
  · intro r
    rw [getBy_class_eq]
  · intro s h
    simp only [Bool.or_eq_false_iff] at h
    obtain ⟨⟨⟨⟨⟨⟨⟨⟨h1, h2⟩, h3⟩, h4⟩, h5⟩, h6⟩, h7⟩, h8⟩, h9⟩
      := h
    simp only [get_by_strategy, h1, h2, h3, h4, h5, h6, h7, h8, h9]
    simp

/-- Witness for C2: a plain CSS selector goes through unchanged. -/
theorem get_by_strategy_dispatch_witness :
    get_by_strategy "div.login-form".toList
      = (By.CSS_SELECTOR, "div.login-form".toList) :=
  get_by_strategy_dispatch.2.2.2.2.2.2.2.2.2 "div.login-form".toList (by decide)

/-! ## C8: replace strips every occurrence, not only the head -/

/-- C8: for every recognized tag p, the locator value is the selector with
every occurrence of p deleted (Python str.replace(p, ""), embedded as
pyReplaceDel); hence for a selector p ++ r where r itself contains p, the
returned value differs from r. -/
theorem get_by_strategy_strips_all_occurrences :
    (∀ r : List Char, (get_by_strategy ("xpath=".toList ++ r)).2
      = pyReplaceDel "xpath=".toList ("xpath=".toList ++ r)) ∧
    (∀ r : List Char, (get_by_strategy ("id=".toList ++ r)).2
      = pyReplaceDel "id=".toList ("id=".toList ++ r)) ∧
    (∀ r : List Char, (get_by_strategy ("name=".toList ++ r)).2
      = pyReplaceDel "name=".toList ("name=".toList ++ r)) ∧
    (∀ r : List Char, (get_by_strategy ("link=".toList ++ r)).2
      = pyReplaceDel "link=".toList ("link=".toList ++ r)) ∧
    (∀ r : List Char, (get_by_strategy ("partial_link=".toList ++ r)).2
      = pyReplaceDel "partial_link=".toList ("partial_link=".toList ++ r)) ∧
    (∀ r : List Char, (get_by_strategy ("tag=".toList ++ r)).2
      = pyReplaceDel "tag=".toList ("tag=".toList ++ r)) ∧
    (∀ r : List Char, (get_by_strategy ("class=".toList ++ r)).2
      = pyReplaceDel "class=".toList ("class=".toList ++ r)) ∧
    (∀ p, p ∈ ["xpath=".toList, "id=".toList, "name=".toList, "link=".toList,
        "partial_link=".toList, "tag=".toList, "class=".toList] →
      ∀ r a b : List Char, r = a ++ p ++ b →
        (get_by_strategy (p ++ r)).2 ≠ r) := by
  have key : ∀ (q : Char) (qtl : List Char), ∀ r a b : List Char,
      r = a ++ (q :: qtl) ++ b →
      pyReplaceDel (q :: qtl) ((q :: qtl) ++ r) ≠ r := by
    intro q qtl r a b hr hcontra
    rw [pyReplaceDel_cancel] at hcontra
    have hlen := pyReplaceDel_occurs_length q qtl r a b hr
    have hrlen : (qtl.length + 1) + (a.length + b.length) = r.length := by
      rw [hr]
      simp [List.length_append]
      omega
    have := congrArg List.length hcontra
    omega
  refine ⟨?_, ?_, ?_, ?_, ?_, ?_, ?_, ?_⟩
  · intro r
    rw [getBy_xpath_eq]
  · intro r
    rw [getBy_id_eq]
  · intro r
    rw [getBy_name_eq]
  · intro r
    rw [getBy_link_eq]
  · intro r
    rw [getBy_plink_eq]
  · intro r
    rw [getBy_tag_eq]
  · intro r
    rw [getBy_class_eq]
  · intro p hp
    fin_cases hp
    · intro r a b hr
      rw [getBy_xpath_eq]
      exact key _ _ r a b hr
    · intro r a b hr
      rw [getBy_id_eq]
      exact key _ _ r a b hr
    · intro r a b hr
      rw [getBy_name_eq]
      exact key _ _ r a b hr
    · intro r a b hr
      rw [getBy_link_eq]
      exact key _ _ r a b hr
    · intro r a b hr
      rw [getBy_plink_eq]
      exact key _ _ r a b hr
    · intro r a b hr
      rw [getBy_tag_eq]
      exact key _ _ r a b hr
    · intro r a b hr
      rw [getBy_class_eq]
      exact key _ _ r a b hr

/-- Witness for C8: selector "id=xid=y" resolves to a value different from
"xid=y" (both occurrences of "id=" are deleted). -/
theorem get_by_strategy_strips_all_occurrences_witness :
    (get_by_strategy ("id=".toList ++ "xid=y".toList)).2 ≠ "xid=y".toList :=
  get_by_strategy_strips_all_occurrences.2.2.2.2.2.2.2
    "id=".toList (by decide) "xid=y".toList "x".toList "y".toList (by decide)

/-! ## C10: StringHelper.truncate -/

/-- Counterexample to C10 as stated: truncate(text, n) = text does NOT hold
exactly when len(text) <= n; for text = "..." and n = 0 the function returns
text[:0] + "..." = "..." = text although len(text) = 3 > 0. -/
theorem truncate_fixed_point_counterexample :
    truncate "...".toList 0 = "...".toList ∧ ¬ ("...".toList.length ≤ 0) :=
  ⟨by decide, by decide⟩

/-- C10 amended: truncate is idempotent; truncate(text, n) = text if and only
if len(text) <= n OR text already equals its first n characters followed by
"..."; and whenever len(text) > n the result is the first n characters
followed by "...". -/
theorem truncate_amended (text : List Char) (n : Nat) :
    truncate (truncate text n) n = truncate text n ∧
    (truncate text n = text ↔
      (text.length ≤ n ∨ text = text.take n ++ "...".toList)) ∧
    (n < text.length → truncate text n = text.take n ++ "...".toList) := by
  by_cases h : text.length ≤ n
  · have hnot : ¬ text.length > n := by omega
    refine ⟨?_, ?_, ?_⟩
    · simp [truncate, hnot]
    · constructor
      · intro _
        exact Or.inl h
      · intro _
        simp [truncate, hnot]
    · intro hcon
      omega
  · have hgt : text.length > n := by omega
    have htake : (text.take n).length = n := by
      rw [List.length_take]
      omega
    have heq : truncate text n = text.take n ++ "...".toList := by
      simp [truncate, hgt]
    refine ⟨?_, ?_, fun _ => heq⟩
    · rw [heq]
      have hlong : (text.take n ++ "...".toList).length > n := by
        simp [List.length_append, htake]
      have htk : (text.take n ++ "...".toList).take n = text.take n := by
        rw [List.take_append_eq_append_take, List.take_take, min_self,
          htake, Nat.sub_self]
        simp
      simp only [truncate, hlong, if_pos]
      rw [htk]
    · constructor
      · intro hfix
        right
        rw [← heq, hfix]
      · intro hd
        rcases hd with hle | hself
        · omega
        · rw [heq, ← hself]

/-- Witness for C10 amended: a string longer than the limit is cut to its
first n characters plus the ellipsis. -/
theorem truncate_amended_witness :
    2 < "abcdef".toList.length ∧
    truncate "abcdef".toList 2 = "abcdef".toList.take 2 ++ "...".toList :=
  ⟨by decide, (truncate_amended "abcdef".toList 2).2.2 (by decide)⟩

/-! ## C6: failure triage never raises -/

/-- C6: _take_screenshot and _log_element_state catch every exception of the
driver or filesystem internally and only log a warning, for every
combination of outcomes of the calls they make; hence triage can neither
replace an in-flight exception nor make a successful operation fail. -/
theorem triage_helpers_never_raise :
    (∀ makedirs save : Option Exn, (take_screenshot makedirs save).2 = none) ∧
    (∀ displayed enabled text : Option Exn,
      log_element_state displayed enabled text = none) := by
  constructor
  · intro makedirs save
    cases makedirs <;> cases save <;> rfl
  · intro displayed enabled text
    cases displayed <;> cases enabled <;> cases text <;> rfl

/-! ## C9: state queries are total in the absence of the element -/

/-- C9: when the find raises TimeoutException or NoSuchElementException,
is_visible, is_enabled, is_checked and element_exists return False and
count_elements returns 0, and every CustomWaits helper returns False on
TimeoutException — none of them propagates the exception. -/
theorem state_queries_total_on_absence (e : Exn)
    (h : caughtByStateCheck e = true) :
    (∀ displayed, is_visible (some e) displayed = .ok false) ∧
    (∀ enabled, is_enabled (some e) enabled = .ok false) ∧
    (∀ selected, is_checked (some e) selected = .ok false) ∧
    count_elements (Except.error e) = .ok 0 ∧
    element_exists (some e) = .ok false ∧
    (isTimeout e = true →
      wait_for_url_contains (some e) = .ok false ∧
      wait_for_url_to_be (some e) = .ok false ∧
      wait_for_element_text_to_be (some e) = .ok false ∧
      wait_for_custom_condition (some e) = .ok false) := by
  refine ⟨?_, ?_, ?_, ?_, ?_, ?_⟩
  · intro displayed
    simp [is_visible, h]
  · intro enabled
    simp [is_enabled, h]
  · intro selected
    simp [is_checked, h]
  · simp [count_elements, h]
  · simp [element_exists, h]
  · intro ht
    refine ⟨?_, ?_, ?_, ?_⟩ <;>
      simp [wait_for_url_contains, wait_for_url_to_be,
        wait_for_element_text_to_be, wait_for_custom_condition, ht]

/-- Witness for C9 at a concrete TimeoutException. -/
theorem state_queries_total_on_absence_witness :
    is_visible (some (Exn.timeout "t")) (Except.ok true) = .ok false ∧
    count_elements (Except.error (Exn.timeout "t")) = .ok 0 ∧
    wait_for_custom_condition (some (Exn.timeout "t")) = .ok false := by
  have h := state_queries_total_on_absence (Exn.timeout "t") (by decide)
  exact ⟨h.1 _, h.2.2.2.1, (h.2.2.2.2.2 (by decide)).2.2.2⟩

/-! ## Retry-loop lemmas (C3, C4) -/

theorem go_stop (env : Nat → AttemptEnv) (m a : Nat) (h : m < a) :
    clickRetryGo env m a = ([], none) := by
  rw [clickRetryGo.eq_def]
  simp [h]

theorem go_success (env : Nat → AttemptEnv) (m a : Nat) (h : ¬ m < a)
    (hs : (runAttempt (env a) a).2 = none) :
    clickRetryGo env m a = ((runAttempt (env a) a).1, none) := by
  rw [clickRetryGo.eq_def]
  simp [h, hs]

theorem go_retry_cont (env : Nat → AttemptEnv) (m a : Nat) (e : Exn)
    (h : a < m) (he : (runAttempt (env a) a).2 = some e)
    (hr : retryable e = true) :
    clickRetryGo env m a
      = ((runAttempt (env a) a).1
          ++ Event.sleep 10 :: (clickRetryGo env m (a + 1)).1,
        (clickRetryGo env m (a + 1)).2) := by
  rw [clickRetryGo.eq_def]
  have h2 : ¬ m < a := by omega
  simp [h, h2, he, hr]

theorem go_retry_last (env : Nat → AttemptEnv) (m : Nat) (e : Exn)
    (he : (runAttempt (env m) m).2 = some e) (hr : retryable e = true) :
    clickRetryGo env m m
      = ((runAttempt (env m) m).1
          ++ [Event.screenshot "click_retry_failed"], some e) := by
  rw [clickRetryGo.eq_def]
  simp [he, hr]

theorem go_fatal (env : Nat → AttemptEnv) (m a : Nat) (e : Exn)
    (h : ¬ m < a) (he : (runAttempt (env a) a).2 = some e)
    (hr : retryable e = false) :
    clickRetryGo env m a
      = ((runAttempt (env a) a).1
          ++ [Event.screenshot ("click_error_attempt_" ++ toString a)],
        some e) := by
  rw [clickRetryGo.eq_def]
  simp [h, he, hr]

theorem runAttempt_countAttempts (a : AttemptEnv) (n : Nat) :
    countAttempts (runAttempt a n).1 = 1 := by
  rcases a with ⟨f, s, c⟩
  cases f <;> cases s <;> cases c <;> simp [runAttempt, countAttempts]

theorem runAttempt_countSleep10 (a : AttemptEnv) (n : Nat) :
    countSleep10 (runAttempt a n).1 = 0 := by
  rcases a with ⟨f, s, c⟩
  cases f <;> cases s <;> cases c <;> simp [runAttempt, countSleep10]

theorem countAttempts_append (t u : List Event) :
    countAttempts (t ++ u) = countAttempts t + countAttempts u := by
  simp [countAttempts, List.filter_append]

theorem countSleep10_append (t u : List Event) :
    countSleep10 (t ++ u) = countSleep10 t + countSleep10 u := by
  simp [countSleep10, List.filter_append]

theorem countAttempts_sleep_cons (n : Nat) (u : List Event) :
    countAttempts (Event.sleep n :: u) = countAttempts u := by
  simp [countAttempts]

theorem countSleep10_ten_cons (u : List Event) :
    countSleep10 (Event.sleep 10 :: u) = countSleep10 u + 1 := by
  simp [countSleep10]

theorem go_countAttempts_le (env : Nat → AttemptEnv) (m : Nat) :
    ∀ a, countAttempts (clickRetryGo env m a).1 ≤ m + 1 - a := by
  intro a
  induction a using clickRetryGo.induct env m with
  | case1 x hx =>
    rw [go_stop env m x hx]
    simp [countAttempts]
  | case2 x hx hs =>
    rw [go_success env m x hx hs, runAttempt_countAttempts]
    omega
  | case3 x hx e he hr hlt ih =>
    rw [go_retry_cont env m x e hlt he hr]
    simp only [countAttempts_append, countAttempts_sleep_cons,
      runAttempt_countAttempts]
    omega
  | case4 x hx e he hr hge =>
    have hxm : x = m := by omega
    rw [hxm] at he ⊢
    rw [go_retry_last env m e he hr]
    simp only [countAttempts_append, runAttempt_countAttempts]
    have : countAttempts [Event.screenshot "click_retry_failed"] = 0 := by
      simp [countAttempts]
    omega
  | case5 x hx e he hr =>
    rw [go_fatal env m x e hx he (by simpa using hr)]
    simp only [countAttempts_append, runAttempt_countAttempts]
    have : countAttempts [Event.screenshot ("click_error_attempt_" ++ toString x)] = 0 := by
      simp [countAttempts]
    omega

theorem go_skip (env : Nat → AttemptEnv) (m : Nat) :
    ∀ (k a j : Nat), j - a = k → a ≤ j → j ≤ m →
      (∀ i, a ≤ i → i < j → attemptFailsRetryable env i) →
      (clickRetryGo env m a).2 = (clickRetryGo env m j).2 ∧
      countAttempts (clickRetryGo env m a).1
        = (j - a) + countAttempts (clickRetryGo env m j).1 ∧
      countSleep10 (clickRetryGo env m a).1
        = (j - a) + countSleep10 (clickRetryGo env m j).1 ∧
      (∀ ev, ev ∈ (clickRetryGo env m j).1 → ev ∈ (clickRetryGo env m a).1) := by
  intro k
  induction k with
  | zero =>
    intro a j hk ha hj hfail
    have : a = j := by omega
    subst this
    exact ⟨rfl, by omega, by omega, fun ev h => h⟩
  | succ k ih =>
    intro a j hk ha hj hfail
    have haj : a < j := by omega
    obtain ⟨e, he, hr⟩ := hfail a (Nat.le_refl a) haj
    have ham : a < m := by omega
    have hcont := go_retry_cont env m a e ham he hr
    have ihres := ih (a + 1) j (by omega) (by omega) hj
      (fun i h1 h2 => hfail i (by omega) h2)
    obtain ⟨ih1, ih2, ih3, ih4⟩ := ihres
    refine ⟨?_, ?_, ?_, ?_⟩
    · rw [hcont]
      exact ih1
    · rw [hcont]
      simp only [countAttempts_append, countAttempts_sleep_cons,
        runAttempt_countAttempts]
      omega
    · rw [hcont]
      simp only [countSleep10_append, countSleep10_ten_cons,
        runAttempt_countSleep10]
      omega
    · intro ev hev
      rw [hcont]
      simp only [List.mem_append, List.mem_cons]
      exact Or.inr (Or.inr (ih4 ev hev))

/-- C3: click_element_with_retry performs at most max_attempts attempts and
returns as soon as one attempt's click succeeds; it retries (with exactly one
one-second pause per retry) only when the attempt fails with
ElementNotInteractableException or StaleElementReferenceException, re-raising
that exception after the "click_retry_failed" screenshot once all
max_attempts attempts are exhausted; any other exception aborts immediately
on the attempt where it occurs, with the "click_error_attempt_n" screenshot,
and is re-raised without further attempts. -/
theorem click_retry_behaviour (env : Nat → AttemptEnv) (m : Nat) :
    countAttempts (click_element_with_retry env m).1 ≤ m ∧
    (∀ j, 1 ≤ j → j ≤ m →
      (∀ i, 1 ≤ i → i < j → attemptFailsRetryable env i) →
      attemptSucceeds env j →
      (click_element_with_retry env m).2 = none ∧
      countAttempts (click_element_with_retry env m).1 = j ∧
      countSleep10 (click_element_with_retry env m).1 = j - 1) ∧
    (1 ≤ m →
      (∀ i, 1 ≤ i → i < m → attemptFailsRetryable env i) →
      ∀ e, (runAttempt (env m) m).2 = some e → retryable e = true →
      (click_element_with_retry env m).2 = some e ∧
      countAttempts (click_element_with_retry env m).1 = m ∧
      countSleep10 (click_element_with_retry env m).1 = m - 1 ∧
      Event.screenshot "click_retry_failed" ∈ (click_element_with_retry env m).1) ∧
    (∀ j, 1 ≤ j → j ≤ m →
      (∀ i, 1 ≤ i → i < j → attemptFailsRetryable env i) →
      ∀ e, (runAttempt (env j) j).2 = some e → retryable e = false →
      (click_element_with_retry env m).2 = some e ∧
      countAttempts (click_element_with_retry env m).1 = j ∧
      countSleep10 (click_element_with_retry env m).1 = j - 1 ∧
      Event.screenshot ("click_error_attempt_" ++ toString j)
        ∈ (click_element_with_retry env m).1) := by
  refine ⟨?_, ?_, ?_, ?_⟩
  · have := go_countAttempts_le env m 1
    simpa [click_element_with_retry] using this
  · intro j h1 hj hfail hsucc
    obtain ⟨s1, s2, s3, s4⟩ := go_skip env m (j - 1) 1 j (by omega) h1 hj hfail
    have hnot : ¬ m < j := by omega
    have hsj := go_success env m j hnot hsucc
    unfold click_element_with_retry
    refine ⟨?_, ?_, ?_⟩
    · rw [s1, hsj]
    · rw [s2, hsj, runAttempt_countAttempts]
      omega
    · rw [s3, hsj, runAttempt_countSleep10]
      omega
  · intro hm hfail e he hr
    obtain ⟨s1, s2, s3, s4⟩ := go_skip env m (m - 1) 1 m (by omega) hm
      (Nat.le_refl m) hfail
    have hlast := go_retry_last env m e he hr
    unfold click_element_with_retry
    refine ⟨?_, ?_, ?_, ?_⟩
    · rw [s1, hlast]
    · rw [s2, hlast]
      simp only [countAttempts_append, runAttempt_countAttempts]
      have : countAttempts [Event.screenshot "click_retry_failed"] = 0 := by
        simp [countAttempts]
      omega
    · rw [s3, hlast]
      simp only [countSleep10_append, runAttempt_countSleep10]
      have : countSleep10 [Event.screenshot "click_retry_failed"] = 0 := by
        simp [countSleep10]
      omega
    · apply s4
      rw [hlast]
      simp
  · intro j h1 hj hfail e he hr
    obtain ⟨s1, s2, s3, s4⟩ := go_skip env m (j - 1) 1 j (by omega) h1 hj hfail
    have hnot : ¬ m < j := by omega
    have hfat := go_fatal env m j e hnot he (by simp [hr])
    unfold click_element_with_retry
    refine ⟨?_, ?_, ?_, ?_⟩
    · rw [s1, hfat]
    · rw [s2, hfat]
      simp only [countAttempts_append, runAttempt_countAttempts]
      have : countAttempts [Event.screenshot ("click_error_attempt_" ++ toString j)] = 0 := by
        simp [countAttempts]
      omega
    · rw [s3, hfat]
      simp only [countSleep10_append, runAttempt_countSleep10]
      have : countSleep10 [Event.screenshot ("click_error_attempt_" ++ toString j)] = 0 := by
        simp [countSleep10]
      omega
    · apply s4
      rw [hfat]
      simp

theorem runAttempt_click_strat (a : AttemptEnv) (n : Nat) (s : ClickStrategy)
    (h : Event.click s ∈ (runAttempt a n).1) : s = stratFor n := by
  rcases a with ⟨f, sc, c⟩
  cases f <;> cases sc <;> cases c <;> simp_all [runAttempt]

theorem runAttempt_click_order (a : AttemptEnv) (n : Nat) (s : ClickStrategy)
    (h : Event.click s ∈ (runAttempt a n).1) :
    (runAttempt a n).1.take 6
      = [.attemptStart n, .waitClickable, .logState, .scrollIntoView,
         .sleep 3, .click (stratFor n)] := by
  rcases a with ⟨f, sc, c⟩
  cases f <;> cases sc <;> cases c <;> simp_all [runAttempt]

theorem go_click_from_attempt (env : Nat → AttemptEnv) (m : Nat) :
    ∀ a s, Event.click s ∈ (clickRetryGo env m a).1 →
      ∃ n, a ≤ n ∧ n ≤ m ∧ Event.click s ∈ (runAttempt (env n) n).1 := by
  intro a
  induction a using clickRetryGo.induct env m with
  | case1 x hx =>
    intro s hs
    rw [go_stop env m x hx] at hs
    simp at hs
  | case2 x hx hsucc =>
    intro s hs
    rw [go_success env m x hx hsucc] at hs
    exact ⟨x, Nat.le_refl x, by omega, hs⟩
  | case3 x hx e he hr hlt ih =>
    intro s hs
    rw [go_retry_cont env m x e hlt he hr] at hs
    simp only [List.mem_append, List.mem_cons] at hs
    rcases hs with hs | hs | hs
    · exact ⟨x, Nat.le_refl x, by omega, hs⟩
    · exact absurd hs (by simp)
    · obtain ⟨n, hn1, hn2, hn3⟩ := ih s hs
      exact ⟨n, by omega, hn2, hn3⟩
  | case4 x hx e he hr hge =>
    intro s hs
    have hxm : x = m := by omega
    rw [hxm] at he hs ⊢
    rw [go_retry_last env m e he hr] at hs
    simp only [List.mem_append, List.mem_singleton] at hs
    rcases hs with hs | hs
    · exact ⟨m, Nat.le_refl m, Nat.le_refl m, hs⟩
    · exact absurd hs (by simp)
  | case5 x hx e he hr =>
    intro s hs
    rw [go_fatal env m x e hx he (by simpa using hr)] at hs
    simp only [List.mem_append, List.mem_singleton] at hs
    rcases hs with hs | hs
    · exact ⟨x, Nat.le_refl x, by omega, hs⟩
    · exact absurd hs (by simp)

/-- C4: within click_element_with_retry the click strategy escalates
deterministically with the attempt number — attempt 1 uses the standard
click, attempt 2 the JavaScript click, every attempt from 3 onward the
ActionChains move-and-click — and each attempt that reaches its click first
waited for the element to be clickable, logged its state and scrolled it
into view, in that order. -/
theorem click_retry_strategy_escalation :
    (stratFor 1 = .standard ∧ stratFor 2 = .javascript ∧
      ∀ n, 3 ≤ n → stratFor n = .actionChains) ∧
    (∀ a n s, Event.click s ∈ (runAttempt a n).1 → s = stratFor n) ∧
    (∀ a n s, Event.click s ∈ (runAttempt a n).1 →
      (runAttempt a n).1.take 6
        = [.attemptStart n, .waitClickable, .logState, .scrollIntoView,
           .sleep 3, .click (stratFor n)]) ∧
    (∀ env m s, Event.click s ∈ (click_element_with_retry env m).1 →
      ∃ n, 1 ≤ n ∧ n ≤ m ∧ s = stratFor n ∧
        Event.click s ∈ (runAttempt (env n) n).1) := by
  refine ⟨⟨rfl, rfl, ?_⟩, runAttempt_click_strat, runAttempt_click_order, ?_⟩
  · intro n hn
    have h1 : n ≠ 1 := by omega
    have h2 : n ≠ 2 := by omega
    simp [stratFor, h1, h2]
  · intro env m s hs
    obtain ⟨n, hn1, hn2, hn3⟩ := go_click_from_attempt env m 1 s hs
    exact ⟨n, hn1, hn2, runAttempt_click_strat _ _ _ hn3, hn3⟩

/-- Witness for C3 in the environment where attempt 1 raises
StaleElementReferenceException at the click and attempt 2 succeeds: the call
returns normally after exactly 2 attempts and one one-second pause. -/
theorem click_retry_behaviour_witness :
    (click_element_with_retry retryEnvA 3).2 = none ∧
    countAttempts (click_element_with_retry retryEnvA 3).1 = 2 ∧
    countSleep10 (click_element_with_retry retryEnvA 3).1 = 1 := by
  have h := (click_retry_behaviour retryEnvA 3).2.1 2 (by omega) (by omega)
    (fun i h1 h2 => by
      have hi : i = 1 := by omega
      subst hi
      exact ⟨.staleElementReference, rfl, rfl⟩)
    (by exact rfl)
  exact h

/-- Witness for C4: in the all-success environment the one click recorded is
the standard click of attempt 1. -/
theorem click_retry_strategy_escalation_witness :
    ∃ n, 1 ≤ n ∧ n ≤ 3 ∧ ClickStrategy.standard = stratFor n ∧
      Event.click .standard ∈ (runAttempt (retryEnvOk n) n).1 := by
  have hgo : click_element_with_retry retryEnvOk 3
      = ((runAttempt (retryEnvOk 1) 1).1, none) :=
    go_success retryEnvOk 3 1 (by omega) rfl
  have hmem : Event.click .standard ∈ (click_element_with_retry retryEnvOk 3).1 := by
    rw [hgo]
    decide
  exact click_retry_strategy_escalation.2.2.2 retryEnvOk 3 .standard hmem

/-! ## Virtual-list scroll lemmas (C5) -/

theorem scroll_stop (env : Nat → VIter) (t : String) (i : Nat) (h : 30 ≤ i) :
    antScrollGo env t i
      = .timedOut ("Could not find option \x27" ++ t
          ++ "\x27 after scrolling") i := by
  rw [antScrollGo.eq_def]
  simp [h]

theorem scroll_success (env : Nat → VIter) (t : String) (i : Nat)
    (h : ¬ 30 ≤ i) (hs : runVIter (env i) = .success) :
    antScrollGo env t i = .selected i := by
  rw [antScrollGo.eq_def]
  simp [h, hs]

theorem scroll_raise (env : Nat → VIter) (t : String) (i : Nat) (e : Exn)
    (h : ¬ 30 ≤ i) (hs : runVIter (env i) = .raiseExn e) :
    antScrollGo env t i = .raisedOther e i := by
  rw [antScrollGo.eq_def]
  simp [h, hs]

theorem scroll_cont (env : Nat → VIter) (t : String) (i : Nat)
    (h : ¬ 30 ≤ i) (hs : runVIter (env i) = .continueLoop) :
    antScrollGo env t i = antScrollGo env t (i + 1) := by
  rw [antScrollGo.eq_def]
  simp [h, hs]

theorem scroll_scrolls_le (env : Nat → VIter) (t : String) :
    ∀ i, i ≤ 30 → (antScrollGo env t i).scrolls ≤ 30 := by
  intro i
  induction i using antScrollGo.induct env t with
  | case1 x hx =>
    intro hle
    rw [scroll_stop env t x hx]
    simpa [VResult.scrolls] using hle
  | case2 x hx hs =>
    intro hle
    rw [scroll_success env t x hx hs]
    simpa [VResult.scrolls] using hle
  | case3 x hx e hs =>
    intro hle
    rw [scroll_raise env t x e hx hs]
    simpa [VResult.scrolls] using hle
  | case4 x hx hs ih =>
    intro hle
    rw [scroll_cont env t x hx hs]
    exact ih (by omega)

theorem scroll_skip (env : Nat → VIter) (t : String) :
    ∀ (k i j : Nat), j - i = k → i ≤ j → j ≤ 30 →
      (∀ l, i ≤ l → l < j → runVIter (env l) = .continueLoop) →
      antScrollGo env t i = antScrollGo env t j := by
  intro k
  induction k with
  | zero =>
    intro i j hk hij hj hcont
    have : i = j := by omega
    rw [this]
  | succ k ih =>
    intro i j hk hij hj hcont
    have hlt : i < j := by omega
    have h30 : ¬ 30 ≤ i := by omega
    rw [scroll_cont env t i h30 (hcont i (Nat.le_refl i) hlt)]
    exact ih (i + 1) j (by omega) (by omega) hj
      (fun l h1 h2 => hcont l (by omega) h2)

/-- C5: the virtual-list search of ant_select_option is bounded and total:
it performs at most 30 scroll steps, checks for the option before each
scroll, and when every one of the 30 iterations falls through it ends in a
TimeoutException whose message names the option.  (Totality itself is
witnessed by antScrollGo being a function of Lean, defined by well-founded
recursion on 30 - i.) -/
theorem ant_select_scroll_bounded (env : Nat → VIter) (t : String) :
    (antScrollGo env t 0).scrolls ≤ 30 ∧
    ((∀ i, i < 30 → runVIter (env i) = .continueLoop) →
      antScrollGo env t 0
        = .timedOut ("Could not find option \x27" ++ t
            ++ "\x27 after scrolling") 30) ∧
    (∀ j, j < 30 → (∀ i, i < j → runVIter (env i) = .continueLoop) →
      runVIter (env j) = .success →
      antScrollGo env t 0 = .selected j) := by
  refine ⟨scroll_scrolls_le env t 0 (by omega), ?_, ?_⟩
  · intro hcont
    rw [scroll_skip env t 30 0 30 rfl (by omega) (by omega)
      (fun l h1 h2 => hcont l h2)]
    exact scroll_stop env t 30 (Nat.le_refl 30)
  · intro j hj hcont hsucc
    rw [scroll_skip env t j 0 j rfl (by omega) (by omega)
      (fun l h1 h2 => hcont l h2)]
    exact scroll_success env t j (by omega) hsucc

/-- Witness for C5: when the option never appears, the search stops after
exactly 30 scrolls with the TimeoutException naming the option. -/
theorem ant_select_scroll_bounded_witness :
    antScrollGo scrollEnvNever "Lagos" 0
      = .timedOut ("Could not find option \x27Lagos\x27 after scrolling") 30 :=
  (ant_select_scroll_bounded scrollEnvNever "Lagos").2.1 (fun _ _ => rfl)

/-! ## Error-handling lemmas (C1) -/

theorem overlayStep_eq (o : OverlayOutcome) : overlayStep o = ([], none) := by
  cases o <;> rfl

theorem wait_for_no_overlays_result (env : Nat → OverlayOutcome) :
    wait_for_no_overlays env = ([], none) := by
  unfold wait_for_no_overlays
  simp [List.range_succ, overlayStep_eq, runSeq]

theorem hasScreenshot_append (t u : List Event) :
    hasScreenshot (t ++ u) = (hasScreenshot t || hasScreenshot u) := by
  simp [hasScreenshot, List.any_append]

theorem hasScreenshot_sleep_cons (n : Nat) (u : List Event) :
    hasScreenshot (Event.sleep n :: u) = hasScreenshot u := by
  simp [hasScreenshot]

theorem go_raise_has_screenshot (env : Nat → AttemptEnv) (m : Nat) :
    ∀ a e, (clickRetryGo env m a).2 = some e →
      hasScreenshot (clickRetryGo env m a).1 = true := by
  intro a
  induction a using clickRetryGo.induct env m with
  | case1 x hx =>
    intro e he
    rw [go_stop env m x hx] at he
    exact absurd he (by simp)
  | case2 x hx hs =>
    intro e he
    rw [go_success env m x hx hs] at he
    exact absurd he (by simp)
  | case3 x hx e0 he0 hr hlt ih =>
    intro e he
    rw [go_retry_cont env m x e0 hlt he0 hr] at he ⊢
    simp only at he
    have := ih e he
    rw [hasScreenshot_append, hasScreenshot_sleep_cons, this]
    simp
  | case4 x hx e0 he0 hr hge =>
    intro e he
    have hxm : x = m := by omega
    rw [hxm] at he0 ⊢
    rw [go_retry_last env m e0 he0 hr]
    simp [hasScreenshot_append, hasScreenshot]
  | case5 x hx e0 he0 hr =>
    intro e he
    rw [go_fatal env m x e0 hx he0 (by simpa using hr)]
    simp [hasScreenshot_append, hasScreenshot]

theorem go_none_succeeded (env : Nat → AttemptEnv) (m : Nat) :
    ∀ a, (clickRetryGo env m a).2 = none →
      m < a ∨ ∃ j, a ≤ j ∧ j ≤ m ∧ (runAttempt (env j) j).2 = none := by
  intro a
  induction a using clickRetryGo.induct env m with
  | case1 x hx =>
    intro _
    exact Or.inl hx
  | case2 x hx hs =>
    intro _
    exact Or.inr ⟨x, Nat.le_refl x, by omega, hs⟩
  | case3 x hx e0 he0 hr hlt ih =>
    intro hn
    rw [go_retry_cont env m x e0 hlt he0 hr] at hn
    simp only at hn
    rcases ih hn with h | ⟨j, hj1, hj2, hj3⟩
    · omega
    · exact Or.inr ⟨j, by omega, hj2, hj3⟩
  | case4 x hx e0 he0 hr hge =>
    intro hn
    have hxm : x = m := by omega
    rw [hxm] at he0 hn ⊢
    rw [go_retry_last env m e0 he0 hr] at hn
    exact absurd hn (by simp)
  | case5 x hx e0 he0 hr =>
    intro hn
    rw [go_fatal env m x e0 hx he0 (by simpa using hr)] at hn
    exact absurd hn (by simp)

theorem ant_item_cases (env : AntItemEnv) (t : String) :
    ((click_ant_dropdown_item env t).2 = none →
      (antItemTryLoop env.items 0 3 none).1 = true) ∧
    (∀ e, (click_ant_dropdown_item env t).2 = some e →
      "ant_dropdown_error" ∈ (click_ant_dropdown_item env t).1) := by
  rcases env with ⟨ov, ft, sc, ct, mw, items, cw⟩
  unfold click_ant_dropdown_item
  rw [wait_for_no_overlays_result]
  dsimp only
  cases ft with
  | some e => exact ⟨by simp, by intro e2 _; simp⟩
  | none =>
  cases sc with
  | some e => exact ⟨by simp, by intro e2 _; simp⟩
  | none =>
  cases ct with
  | some e => exact ⟨by simp, by intro e2 _; simp⟩
  | none =>
  cases mw with
  | some e =>
    cases hte : isTimeout e
    · exact ⟨by simp [hte], by intro e2 _; simp [hte]⟩
    · exact ⟨by simp [hte], by intro e2 _; simp [hte]⟩
  | none =>
  rcases hloop : antItemTryLoop items 0 3 none with ⟨clicked, last⟩
  cases clicked with
  | false =>
    cases last with
    | some e => exact ⟨by simp, by intro e2 _; simp⟩
    | none => exact ⟨by simp, by intro e2 _; simp⟩
  | true =>
    cases cw with
    | none => exact ⟨fun _ => rfl, by intro e2 he; simp at he⟩
    | some e =>
      cases hte : isTimeout e
      · exact ⟨by simp [hte], by intro e2 _; simp [hte]⟩
      · exact ⟨fun _ => rfl, by intro e2 he; simp [hte] at he⟩

theorem ant_select_cases (env : AntSelectEnv) (t : String) :
    ((ant_select_option env t).2 = none →
      antSelectImmediate env = none ∨
        ∃ j, antScrollGo env.viter t 0 = .selected j) ∧
    (∀ e, (ant_select_option env t).2 = some e →
      "ant_select_error" ∈ (ant_select_option env t).1) := by
  rcases hce : click_element env.clickDropdown true with ⟨shots, out⟩
  unfold ant_select_option
  rw [hce]
  cases out with
  | some e => exact ⟨by simp, by intro e2 _; simp⟩
  | none =>
  cases hpw : env.panelWait with
  | some e => exact ⟨by simp, by intro e2 _; simp⟩
  | none =>
  cases him : antSelectImmediate env with
  | none => exact ⟨fun _ => Or.inl rfl, by intro e2 he; simp at he⟩
  | some e =>
  cases hte : isTimeout e
  · exact ⟨by simp [hte], by intro e2 _; simp [hte]⟩
  · cases hfv : env.findVirtualList with
    | some e2 => exact ⟨by simp [hte], by intro e3 _; simp [hte]⟩
    | none =>
    cases hsg : antScrollGo env.viter t 0 with
    | selected j =>
      exact ⟨fun _ => Or.inr ⟨j, rfl⟩, by intro e3 he; simp [hte] at he⟩
    | raisedOther e3 j => exact ⟨by simp [hte], by intro e4 _; simp [hte]⟩
    | timedOut msg j => exact ⟨by simp [hte], by intro e4 _; simp [hte]⟩

/-! ## C1: error handling of the element-interaction layer -/

/-- Counterexample to C1 as stated: wait_for_no_overlays is listed among the
operations that catch, log, screenshot and re-raise, but when the overlay
wait raises a TimeoutException on every selector the method records no
screenshot and returns normally — the exception is swallowed. -/
theorem overlay_swallow_counterexample :
    (wait_for_no_overlays
      fun _ => OverlayOutcome.waitRaised (Exn.timeout "overlay still visible")).2
      = none ∧
    (wait_for_no_overlays
      fun _ => OverlayOutcome.waitRaised (Exn.timeout "overlay still visible")).1
      = [] := by
  rw [wait_for_no_overlays_result]
  exact ⟨rfl, rfl⟩

/-- C1 amended: navigate_to, click_element, fill_input,
click_element_with_retry and the Ant dropdown/select operations catch any
exception the underlying driver call raises, take a screenshot and re-raise
the same exception, and none of them returns normally when its body raised;
wait_for_no_overlays, however, catches every exception internally, logs at
debug level only, takes no screenshot, and always returns normally. -/
theorem error_handling_amended :
    (∀ e, navigate_to (some e) = (["navigation_error"], some e)) ∧
    navigate_to none = ([], none) ∧
    (∀ env v e, click_element_body env v = some e →
      click_element env v = (["click_error"], some e)) ∧
    (∀ env v, click_element_body env v = none →
      click_element env v = ([], none)) ∧
    (∀ env c e, fill_input_body env c = some e →
      fill_input env c = (["fill_error"], some e)) ∧
    (∀ env c, fill_input_body env c = none →
      fill_input env c = ([], none)) ∧
    (∀ env m e, (click_element_with_retry env m).2 = some e →
      hasScreenshot (click_element_with_retry env m).1 = true) ∧
    (∀ env m, (click_element_with_retry env m).2 = none →
      m = 0 ∨ ∃ j, 1 ≤ j ∧ j ≤ m ∧ (runAttempt (env j) j).2 = none) ∧
    (∀ env e, ant_trigger_body env = some e →
      click_ant_dropdown_trigger env = (["dropdown_trigger_error"], some e)) ∧
    (∀ env, ant_trigger_body env = none →
      click_ant_dropdown_trigger env = ([], none)) ∧
    (∀ env e, ant_menu_item_body env = some e →
      click_ant_dropdown_menu_item env = (["dropdown_menu_item_error"], some e)) ∧
    (∀ env, ant_menu_item_body env = none →
      click_ant_dropdown_menu_item env = ([], none)) ∧
    (∀ env t e, (click_ant_dropdown_item env t).2 = some e →
      "ant_dropdown_error" ∈ (click_ant_dropdown_item env t).1) ∧
    (∀ env t, (click_ant_dropdown_item env t).2 = none →
      (antItemTryLoop env.items 0 3 none).1 = true) ∧
    (∀ env t e, (ant_select_option env t).2 = some e →
      "ant_select_error" ∈ (ant_select_option env t).1) ∧
    (∀ env t, (ant_select_option env t).2 = none →
      antSelectImmediate env = none ∨
        ∃ j, antScrollGo env.viter t 0 = .selected j) ∧
    (∀ env, wait_for_no_overlays env = ([], none)) := by
  refine ⟨fun e => rfl, rfl, ?_, ?_, ?_, ?_, ?_, ?_, ?_, ?_, ?_, ?_, ?_, ?_,
    ?_, ?_, wait_for_no_overlays_result⟩
  · intro env v e h
    unfold click_element
    rw [h]
  · intro env v h
    unfold click_element
    rw [h]
  · intro env c e h
    unfold fill_input
    rw [h]
  · intro env c h
    unfold fill_input
    rw [h]
  · intro env m e h
    exact go_raise_has_screenshot env m 1 e h
  · intro env m h
    rcases go_none_succeeded env m 1 h with h0 | ⟨j, hj1, hj2, hj3⟩
    · exact Or.inl (by omega)
    · exact Or.inr ⟨j, hj1, hj2, hj3⟩
  · intro env e h
    unfold click_ant_dropdown_trigger
    rw [h]
  · intro env h
    unfold click_ant_dropdown_trigger
    rw [h]
  · intro env e h
    unfold click_ant_dropdown_menu_item
    rw [h]
  · intro env h
    unfold click_ant_dropdown_menu_item
    rw [h]
  · intro env t e h
    exact (ant_item_cases env t).2 e h
  · intro env t h
    exact (ant_item_cases env t).1 h
  · intro env t e h
    exact (ant_select_cases env t).2 e h
  · intro env t h
    exact (ant_select_cases env t).1 h

/-- Witness for C1 amended at concrete failing driver calls: a navigation
failure and a click failure are screenshotted and re-raised unchanged. -/
theorem error_handling_amended_witness :
    navigate_to (some (Exn.timeout "page load"))
      = (["navigation_error"], some (Exn.timeout "page load")) ∧
    click_element ⟨some .elementNotInteractable, none, none, none⟩ true
      = (["click_error"], some .elementNotInteractable) ∧
    fill_input ⟨none, none, some .staleElementReference, none, none⟩ true
      = (["fill_error"], some .staleElementReference) := by
  refine ⟨error_handling_amended.1 _, ?_, ?_⟩
  · exact error_handling_amended.2.2.1
      ⟨some .elementNotInteractable, none, none, none⟩ true
      .elementNotInteractable rfl
  · exact error_handling_amended.2.2.2.2.1
      ⟨none, none, some .staleElementReference, none, none⟩ true
      .staleElementReference rfl
